import Mathlib

/-!
# Verification of the selector-action library

A shallow embedding of `src/selectorAction.js` (the composer `selectorAction`,
the generated dual-mode action creator, and the thunk it produces) and of the
thunk-like dispatch middleware (`createModifiedThunkMiddleware`), together
with proofs of the specification's claims about them.

JavaScript dynamic values are modelled by `JsVal`: a callable carries its
semantic behaviour as a function `List V → V` from the list of argument
values to the result, over an abstract value domain `V`.  Calls performed by
the embedded code are instrumented: execution runs in `JsM`, which threads a
trace of call events and an exception channel for the JS `TypeError` raised
when a non-callable value is called.  The trace lets the theorems state call
counts, call order, and the exact argument lists the library hands to the
caller-supplied selectors, action creator, dispatch and state accessor.
-/

namespace SelectorAction

variable {V A B ρ : Type}

/-- A JavaScript value as seen by `selectorAction` and the middleware.
`funV f` is a callable whose behaviour is the semantic function `f` from its
argument list to its result; `arrV` is an array value holding its elements;
the remaining constructors are the primitive shapes that the validation and
truthiness checks in the source distinguish. -/
inductive JsVal (V : Type) where
  | undef
  | nul
  | boolV (b : Bool)
  | numV (n : Int)
  | strV (s : String)
  | objV
  | arrV (elems : List (JsVal V))
  | funV (f : List V → V)

/-- JavaScript `typeof v === 'function'`. -/
def isFunction : JsVal V → Bool
  | .funV _ => true
  | _ => false

/-- JavaScript `Array.isArray(v)`. -/
def isArray : JsVal V → Bool
  | .arrV _ => true
  | _ => false

/-- The element list of an array value (used after `Array.isArray` holds). -/
def arrayElems : JsVal V → List (JsVal V)
  | .arrV elems => elems
  | _ => []

/-- JavaScript truthiness of a value, as tested by `if (v)` and `&&`:
`undefined`, `null`, `false`, `0` and the empty string are falsy; objects,
arrays and functions are always truthy. -/
def truthy : JsVal V → Bool
  | .undef => false
  | .nul => false
  | .boolV b => b
  | .numV n => n != 0
  | .strV s => s != ""
  | .objV => true
  | .arrV _ => true
  | .funV _ => true

/-- One call performed by the generated thunk while it executes: the state
read, each selector application (with the state it received and its result),
the action-creator call (with its full argument list), and the dispatch. -/
inductive Event (V : Type) where
  | getStateCall (state : V)
  | selectorCall (state : V) (result : V)
  | creatorCall (args : List V) (action : V)
  | dispatchCall (action : V) (result : V)

/-- The JS runtime error raised when a non-callable value is called. -/
inductive JsError where
  | typeError

/-- Execution monad for the embedded JavaScript: a trace of `Event`s is
appended to as calls happen, and calling a non-callable raises `typeError`. -/
def JsM (V A : Type) : Type := List (Event V) → Except JsError A × List (Event V)

def JsM.pure (a : A) : JsM V A := fun log => (Except.ok a, log)

def JsM.bind (m : JsM V A) (f : A → JsM V B) : JsM V B := fun log =>
  match m log with
  | (Except.ok a, log') => f a log'
  | (Except.error e, log') => (Except.error e, log')

instance : Monad (JsM V) where
  pure := JsM.pure
  bind := JsM.bind

/-- Record one call event on the trace. -/
def emit (ev : Event V) : JsM V Unit := fun log => (Except.ok (), log ++ [ev])

/-- Calling a non-callable value throws a JS `TypeError`. -/
def throwType : JsM V A := fun log => (Except.error JsError.typeError, log)

/-- Apply a JS value to a list of argument values. -/
def call (v : JsVal V) (args : List V) : JsM V V :=
  match v with
  | .funV f => pure (f args)
  | _ => throwType

@[simp] theorem pure_apply (a : A) (log : List (Event V)) :
    (pure a : JsM V A) log = (Except.ok a, log) := rfl

@[simp] theorem bind_apply (m : JsM V A) (f : A → JsM V B) (log : List (Event V)) :
    (m >>= f) log =
      match m log with
      | (Except.ok a, log') => f a log'
      | (Except.error e, log') => (Except.error e, log') := rfl

@[simp] theorem emit_apply (ev : Event V) (log : List (Event V)) :
    emit ev log = (Except.ok (), log ++ [ev]) := rfl

@[simp] theorem call_funV (f : List V → V) (args : List V) (log : List (Event V)) :
    call (JsVal.funV f) args log = (Except.ok (f args), log) := rfl

/-- The three construction-time errors `selectorAction` can throw
(src/selectorAction.js lines 3, 15, 19). -/
inductive SAError where
  | arityError
  | invalidActionCreator
  | invalidSelector

/-- The message of the `Error` thrown for each construction failure. -/
def SAError.message : SAError → String
  | .arityError => "selectorAction called with no arguments"
  | .invalidActionCreator => "Action creators must be functions"
  | .invalidSelector => "Selectors must be functions"

/-- `const actionCreator = args[args.length - 1]` (src/selectorAction.js
line 6): the final argument, `undefined` when out of range. -/
def lastArg (args : List (JsVal V)) : JsVal V := args.getD (args.length - 1) JsVal.undef

/-- Resolution of the `selectors` sequence (src/selectorAction.js lines
8-13): with exactly two arguments whose first is an array, the selectors are
that array's elements; otherwise every argument but the last is a selector
(`args.slice(0, args.length - 1)`). -/
def resolveSelectors (args : List (JsVal V)) : List (JsVal V) :=
  if args.length = 2 ∧ isArray (args.getD 0 JsVal.undef) = true then
    arrayElems (args.getD 0 JsVal.undef)
  else
    args.take (args.length - 1)

/-- `selectors.map((selector) => selector(state))` (src/selectorAction.js
line 31), instrumented: each selector is called, in order, on the state. -/
def mapSelectors (state : V) : List (JsVal V) → JsM V (List V)
  | [] => pure []
  | selector :: rest => do
      let r ← call selector [state]
      emit (Event.selectorCall state r)
      let rs ← mapSelectors state rest
      pure (r :: rs)

/-- `internalGeneratedSelectorAction` (src/selectorAction.js lines 26-33),
the thunk body: read the state via `getState()`, apply every captured
selector to it in order, call the action creator with the selector results
followed by the state (`actionCreator(...appliedSelectors, state)`), and
return the result of dispatching the computed action. -/
def internalGeneratedSelectorAction (selectors : List (JsVal V)) (actionCreator : JsVal V)
    (dispatch : JsVal V) (getState : JsVal V) : JsM V V := do
  let state ← call getState []
  emit (Event.getStateCall state)
  let appliedSelectors ← mapSelectors state selectors
  let action ← call actionCreator (appliedSelectors ++ [state])
  emit (Event.creatorCall (appliedSelectors ++ [state]) action)
  let result ← call dispatch [action]
  emit (Event.dispatchCall action result)
  pure result

/-- The thunk value `action` created inside `generatedActionCreator`: a
callable of `(dispatch, getState)` carrying the `IS_SELECTOR_ACTION` marker
(src/selectorAction.js lines 26-34). -/
structure SelThunk (V : Type) where
  IS_SELECTOR_ACTION : Bool
  run : JsVal V → JsVal V → JsM V V

/-- The fresh marked thunk built on every call of the generated action
creator: `action.IS_SELECTOR_ACTION = true` (src/selectorAction.js
line 34). -/
def mkThunkAction (selectors : List (JsVal V)) (actionCreator : JsVal V) : SelThunk V where
  IS_SELECTOR_ACTION := true
  run := fun dispatch getState =>
    internalGeneratedSelectorAction selectors actionCreator dispatch getState

/-- Execute a thunk on a dispatch/getState pair, starting from an empty
trace: the dispatch result (or JS error) and the calls performed. -/
def runThunk (t : SelThunk V) (dispatch getState : JsVal V) :
    Except JsError V × List (Event V) :=
  t.run dispatch getState []

/-- What one invocation of the generated action creator returns: either the
thunk itself (the deferred path, src/selectorAction.js line 40) or the
result of executing it immediately (line 37). -/
inductive CallOutcome (V : Type) where
  | thunk (t : SelThunk V)
  | executed (r : Except JsError V × List (Event V))

/-- `generatedActionCreator` (src/selectorAction.js lines 22-41): build a
fresh marked thunk, then `if (dispatchArg && getStateArg)` — JS truthiness
of both call arguments — execute it immediately on them, else return it. -/
def generatedActionCreator (selectors : List (JsVal V)) (actionCreator : JsVal V)
    (dispatchArg getStateArg : JsVal V) : CallOutcome V :=
  let action := mkThunkAction selectors actionCreator
  if truthy dispatchArg && truthy getStateArg then
    CallOutcome.executed (runThunk action dispatchArg getStateArg)
  else
    CallOutcome.thunk action

/-- The value `selectorAction` returns: the generated action creator
together with its two own properties (src/selectorAction.js lines 42-44).
`call` models invoking the function with a JS argument list; parameters not
supplied by the caller default to `undefined`. -/
structure ComposedUnit (V : Type) where
  call : List (JsVal V) → CallOutcome V
  originalActionCreator : JsVal V
  IS_SELECTOR_ACTION : Bool

/-- The composed unit built over resolved selectors and action creator. -/
def mkComposedUnit (selectors : List (JsVal V)) (actionCreator : JsVal V) : ComposedUnit V where
  call := fun callArgs =>
    generatedActionCreator selectors actionCreator
      (callArgs.getD 0 JsVal.undef) (callArgs.getD 1 JsVal.undef)
  originalActionCreator := actionCreator
  IS_SELECTOR_ACTION := true

/-- `selectorAction` (src/selectorAction.js lines 1-48): the arity check
(line 2), then `typeof actionCreator !== 'function'` (line 14), then the
`selectors.forEach` callability check (lines 17-21, which throws exactly
when some resolved selector is not a function), and finally the composed
unit. -/
def selectorAction (args : List (JsVal V)) : Except SAError (ComposedUnit V) :=
  if args.length = 0 then
    Except.error SAError.arityError
  else if isFunction (lastArg args) = false then
    Except.error SAError.invalidActionCreator
  else if (resolveSelectors args).all isFunction = false then
    Except.error SAError.invalidSelector
  else
    Except.ok (mkComposedUnit (resolveSelectors args) (lastArg args))

/-! ## Basic list helpers for argument resolution -/

theorem take_length_append (l : List A) (x : A) : (l ++ [x]).take l.length = l := by
  induction l with
  | nil => rfl
  | cons a l ih => simp [ih]

theorem getD_length_append (l : List A) (x d : A) : (l ++ [x]).getD l.length d = x := by
  induction l with
  | nil => rfl
  | cons a l ih => simp

theorem lastArg_append (pre : List (JsVal V)) (x : JsVal V) :
    lastArg (pre ++ [x]) = x := by
  unfold lastArg
  simp [getD_length_append]

theorem isArray_eq_false_of_isFunction (v : JsVal V) (h : isFunction v = true) :
    isArray v = false := by
  cases v <;> simp_all [isFunction, isArray]

theorem resolveSelectors_append_of_funs (pre : List (JsVal V)) (x : JsVal V)
    (h : ∀ v ∈ pre, isFunction v = true) :
    resolveSelectors (pre ++ [x]) = pre := by
  unfold resolveSelectors
  match pre with
  | [] => rfl
  | [a] =>
      have ha := isArray_eq_false_of_isFunction a (h a (by simp))
      simp [ha]
  | a :: b :: rest =>
      have hlen : (a :: b :: rest ++ [x]).length ≠ 2 := by
        simp
      rw [if_neg (by simp_all)]
      simp

theorem resolveSelectors_array_form (S : List (JsVal V)) (x : JsVal V) :
    resolveSelectors [JsVal.arrV S, x] = S := rfl

/-- Characterization of a successful construction: `selectorAction args`
returns a composed unit exactly when the argument list is nonempty, the
final argument is callable and every resolved selector is callable, and the
unit is then `mkComposedUnit` over the resolved selectors and creator. -/
theorem selectorAction_ok_elim {args : List (JsVal V)} {u : ComposedUnit V}
    (h : selectorAction args = Except.ok u) :
    args.length ≠ 0 ∧ isFunction (lastArg args) = true ∧
      (resolveSelectors args).all isFunction = true ∧
      u = mkComposedUnit (resolveSelectors args) (lastArg args) := by
  by_cases h0 : args.length = 0
  · simp [selectorAction, h0] at h
  · by_cases h1 : isFunction (lastArg args) = true
    · by_cases h2 : (resolveSelectors args).all isFunction = true
      · refine ⟨h0, h1, h2, ?_⟩
        simp [selectorAction, h0, h1, h2] at h
        exact h.symm
      · rw [Bool.not_eq_true] at h2
        simp [selectorAction, h0, h1, h2] at h
    · rw [Bool.not_eq_true] at h1
      simp [selectorAction, h0, h1] at h

/-! ## Running the thunk body -/

theorem mapSelectors_map_funV (fs : List (List V → V)) (state : V) (log : List (Event V)) :
    mapSelectors state (fs.map JsVal.funV) log =
      (Except.ok (fs.map fun f => f [state]),
       log ++ fs.map fun f => Event.selectorCall state (f [state])) := by
  induction fs generalizing log with
  | nil => simp [mapSelectors]
  | cons f fs ih => simp [mapSelectors, ih]

/-- Full account of one execution of the thunk body on callable selectors,
creator, dispatch and state accessor: the state is read once, every selector
is applied to it in order, the creator is called once on the selector
results followed by the state, its result is dispatched, and the dispatch
result is returned. -/
theorem internal_run_funV (fs : List (List V → V)) (f fd fg : List V → V)
    (log : List (Event V)) :
    internalGeneratedSelectorAction (fs.map JsVal.funV) (JsVal.funV f)
        (JsVal.funV fd) (JsVal.funV fg) log =
      (Except.ok (fd [f (fs.map (fun sel => sel [fg []]) ++ [fg []])]),
       log ++ (Event.getStateCall (fg []) ::
         fs.map (fun sel => Event.selectorCall (fg []) (sel [fg []])) ++
         [Event.creatorCall (fs.map (fun sel => sel [fg []]) ++ [fg []])
            (f (fs.map (fun sel => sel [fg []]) ++ [fg []])),
          Event.dispatchCall (f (fs.map (fun sel => sel [fg []]) ++ [fg []]))
            (fd [f (fs.map (fun sel => sel [fg []]) ++ [fg []])])])) := by
  simp [internalGeneratedSelectorAction, mapSelectors_map_funV]

/-! ## The dispatch-pipeline middleware -/

/-- A value reaching the middleware's per-action stage.  A callable carries
the value of its `IS_SELECTOR_ACTION` property (`undef` when never set) and
its behaviour on a `(dispatch, getState)` pair; any other value is plain. -/
inductive MwAction (V ρ : Type) where
  | callable (marker : JsVal V) (body : JsVal V → JsVal V → ρ)
  | plain (v : JsVal V)

/-- The store context destructured at the middleware's first layer
(`({ dispatch, getState })`). -/
structure MwStore (V : Type) where
  dispatch : JsVal V
  getState : JsVal V

/-- The per-action stage of `createModifiedThunkMiddleware` (middleware
source lines 3-11): `if (typeof action === 'function' &&
action.IS_SELECTOR_ACTION) return action(dispatch, getState); return
next(action);`. -/
def createModifiedThunkMiddleware (store : MwStore V) (next : MwAction V ρ → ρ)
    (action : MwAction V ρ) : ρ :=
  match action with
  | .callable marker body =>
      if truthy marker then body store.dispatch store.getState else next action
  | .plain _ => next action

/-! ## Array aliasing: the captured `selectors` under JS reference semantics

JS arrays are mutable objects passed by reference.  `args.slice(0,
args.length - 1)` (src/selectorAction.js line 12) allocates a fresh array,
so the variadic form's captured selectors can never be reached again by the
caller; but `selectors = args[0]` (line 10) stores a reference to the
caller's own array object, whose contents the caller can still mutate after
construction.  The thunk body reads `selectors` (line 31) at invocation
time.  `ArrStore` is a heap of array objects, and `SelSource` is the
`selectors` binding a construction captures. -/

/-- A heap of JS array objects: index `r` holds array `r`'s current
contents. -/
def ArrStore (V : Type) := List (List (JsVal V))

/-- The `selectors` binding captured by the closure: the variadic form's
fresh slice, or the array form's reference to the caller's array object. -/
inductive SelSource (V : Type) where
  | sliced (selectors : List (JsVal V))
  | aliased (r : Nat)

/-- The contents of the captured `selectors` array at a given heap state. -/
def readSelectors (store : ArrStore V) : SelSource V → List (JsVal V)
  | .sliced selectors => selectors
  | .aliased r => store.getD r []

/-- The thunk body with the captured `selectors` read from the heap at
invocation time (src/selectorAction.js line 31). -/
def internalGeneratedSelectorActionAt (store : ArrStore V) (src : SelSource V)
    (actionCreator dispatch getState : JsVal V) : JsM V V :=
  internalGeneratedSelectorAction (readSelectors store src) actionCreator dispatch getState

/-- Execute the heap-reading thunk body from an empty trace. -/
def runThunkAt (store : ArrStore V) (src : SelSource V)
    (actionCreator dispatch getState : JsVal V) :
    Except JsError V × List (Event V) :=
  internalGeneratedSelectorActionAt store src actionCreator dispatch getState []

theorem lastArg_pair (a b : JsVal V) : lastArg [a, b] = b := rfl

/-! ## Claim theorems -/

/-- The behaviour the specification ascribes to one thunk execution over
selectors `fs`, action creator `f`, dispatch `fd` and state accessor `fg`:
the dispatch result on the computed action is returned, and the calls made
are exactly one state read yielding `s`, each selector applied to that same
`s` in construction order, one action-creator call on the selector results
followed by `s` (so `N + 1` arguments; `s` alone when `N = 0`), and one
dispatch of the creator's result. -/
def expectedThunkRun (fs : List (List V → V)) (f fd fg : List V → V) :
    Except JsError V × List (Event V) :=
  let s := fg []
  let results := fs.map fun sel => sel [s]
  let action := f (results ++ [s])
  (Except.ok (fd [action]),
   Event.getStateCall s ::
     fs.map (fun sel => Event.selectorCall s (sel [s])) ++
     [Event.creatorCall (results ++ [s]) action,
      Event.dispatchCall action (fd [action])])

/-- C1: for every valid construction with N selectors (variadic or array
form) and action creator `f`, and every dispatch and state accessor,
executing the produced thunk reads the state exactly once, applies each
selector to that same state in construction order, calls `f` exactly once
with the N selector results followed by the state (N+1 arguments), and
returns the result of applying dispatch to `f`'s result. -/
theorem thunk_execution_protocol (fs : List (List V → V)) (f fd fg : List V → V)
    (u : ComposedUnit V) (t : SelThunk V)
    (hu : selectorAction (fs.map JsVal.funV ++ [JsVal.funV f]) = Except.ok u ∨
          selectorAction [JsVal.arrV (fs.map JsVal.funV), JsVal.funV f] = Except.ok u)
    (ht : u.call [] = CallOutcome.thunk t) :
    runThunk t (JsVal.funV fd) (JsVal.funV fg) = expectedThunkRun fs f fd fg := by
  have hfs : ∀ v ∈ fs.map JsVal.funV, isFunction v = true := by
    intro v hv
    rcases List.mem_map.mp hv with ⟨g, _, rfl⟩
    rfl
  have hu' : u = mkComposedUnit (fs.map JsVal.funV) (JsVal.funV f) := by
    rcases hu with h | h
    · have h4 := (selectorAction_ok_elim h).2.2.2
      rwa [resolveSelectors_append_of_funs _ _ hfs, lastArg_append] at h4
    · have h4 := (selectorAction_ok_elim h).2.2.2
      rwa [resolveSelectors_array_form, lastArg_pair] at h4
  subst hu'
  have ht2 : CallOutcome.thunk (mkThunkAction (fs.map JsVal.funV) (JsVal.funV f)) =
      CallOutcome.thunk t := ht
  injection ht2 with h
  subst h
  show internalGeneratedSelectorAction (fs.map JsVal.funV) (JsVal.funV f)
      (JsVal.funV fd) (JsVal.funV fg) [] = expectedThunkRun fs f fd fg
  rw [internal_run_funV]
  simp [expectedThunkRun]

def sampleSelector : List Nat → Nat := fun args => args.getD 0 0 + 1

def sampleCreator : List Nat → Nat := fun args => args.foldl (fun a b => a + b) 0

def sampleDispatch : List Nat → Nat := fun args => args.getD 0 0 * 10

def sampleGetState : List Nat → Nat := fun _ => 5

theorem thunk_execution_protocol_witness :
    runThunk (mkThunkAction [JsVal.funV sampleSelector] (JsVal.funV sampleCreator))
        (JsVal.funV sampleDispatch) (JsVal.funV sampleGetState) =
      expectedThunkRun [sampleSelector] sampleCreator sampleDispatch sampleGetState :=
  thunk_execution_protocol [sampleSelector] sampleCreator sampleDispatch sampleGetState
    (mkComposedUnit [JsVal.funV sampleSelector] (JsVal.funV sampleCreator))
    (mkThunkAction [JsVal.funV sampleSelector] (JsVal.funV sampleCreator))
    (Or.inl rfl) rfl

/-- C2: construction fails synchronously, returning no composed unit, in
exactly the three misuse cases — zero arguments (arity error), non-callable
final argument (invalid action creator), or some non-callable resolved
selector in either call form (invalid selector) — and succeeds otherwise,
so no validation is left for invocation time. -/
theorem construction_validation (args : List (JsVal V)) :
    (args.length = 0 → selectorAction args = Except.error SAError.arityError) ∧
    (args.length ≠ 0 → isFunction (lastArg args) = false →
        selectorAction args = Except.error SAError.invalidActionCreator) ∧
    (args.length ≠ 0 → isFunction (lastArg args) = true →
        (resolveSelectors args).all isFunction = false →
        selectorAction args = Except.error SAError.invalidSelector) ∧
    (args.length ≠ 0 → isFunction (lastArg args) = true →
        (resolveSelectors args).all isFunction = true →
        selectorAction args =
          Except.ok (mkComposedUnit (resolveSelectors args) (lastArg args))) := by
  refine ⟨fun h0 => by simp [selectorAction, h0],
    fun h0 h1 => by simp [selectorAction, h0, h1],
    fun h0 h1 h2 => by simp [selectorAction, h0, h1, h2],
    fun h0 h1 h2 => by simp [selectorAction, h0, h1, h2]⟩

theorem construction_validation_witness :
    selectorAction ([] : List (JsVal Nat)) = Except.error SAError.arityError ∧
    selectorAction ([JsVal.strV "foo"] : List (JsVal Nat)) =
      Except.error SAError.invalidActionCreator ∧
    selectorAction [JsVal.numV 42, JsVal.funV sampleCreator] =
      Except.error SAError.invalidSelector ∧
    selectorAction [JsVal.arrV [JsVal.objV], JsVal.funV sampleCreator] =
      Except.error SAError.invalidSelector ∧
    selectorAction [JsVal.funV sampleSelector, JsVal.funV sampleCreator] =
      Except.ok (mkComposedUnit [JsVal.funV sampleSelector] (JsVal.funV sampleCreator)) :=
  ⟨(construction_validation []).1 rfl,
   (construction_validation ([JsVal.strV "foo"] : List (JsVal Nat))).2.1 (by decide) rfl,
   (construction_validation [JsVal.numV 42, JsVal.funV sampleCreator]).2.2.1
     (by decide) rfl rfl,
   (construction_validation [JsVal.arrV [JsVal.objV], JsVal.funV sampleCreator]).2.2.1
     (by decide) rfl rfl,
   (construction_validation [JsVal.funV sampleSelector, JsVal.funV sampleCreator]).2.2.2
     (by decide) rfl rfl⟩

/-- C4: for a sequence `S` of selectors (callable values), the variadic
construction `selectorAction (S ++ [f])` and the array-form construction
`selectorAction [arrV S, f]` return equal results — the same validation
outcome, and on success the same composed unit, hence identical thunk
behaviour and dispatch results; `S = []` covers the zero-selector case in
both forms. -/
theorem array_variadic_equivalence (S : List (JsVal V))
    (hS : ∀ v ∈ S, isFunction v = true) (f : JsVal V) :
    selectorAction (S ++ [f]) = selectorAction [JsVal.arrV S, f] := by
  unfold selectorAction
  rw [resolveSelectors_append_of_funs S f hS, resolveSelectors_array_form,
    lastArg_append, lastArg_pair]
  have h1 : ¬((S ++ [f]).length = 0) := by simp
  have h2 : ¬(([JsVal.arrV S, f]).length = 0) := by simp
  rw [if_neg h1, if_neg h2]

theorem array_variadic_equivalence_witness :
    selectorAction ([JsVal.funV sampleSelector] ++ [JsVal.funV sampleCreator]) =
      selectorAction [JsVal.arrV [JsVal.funV sampleSelector], JsVal.funV sampleCreator] :=
  array_variadic_equivalence [JsVal.funV sampleSelector]
    (by intro v hv; rw [List.mem_singleton] at hv; subst hv; rfl)
    (JsVal.funV sampleCreator)

/-- C5: invoking a valid composed unit directly on two callable arguments
is the immediate execution of exactly the thunk that the no-argument call
returns: the outcome is `executed` (no thunk value is visible to the
caller), carrying the result of running that same thunk on the pair. -/
theorem direct_call_runs_thunk (args : List (JsVal V)) (u : ComposedUnit V)
    (t : SelThunk V) (fd fg : List V → V)
    (hu : selectorAction args = Except.ok u) (ht : u.call [] = CallOutcome.thunk t) :
    u.call [JsVal.funV fd, JsVal.funV fg] =
      CallOutcome.executed (runThunk t (JsVal.funV fd) (JsVal.funV fg)) := by
  obtain ⟨-, -, -, hu'⟩ := selectorAction_ok_elim hu
  subst hu'
  have ht2 : CallOutcome.thunk (mkThunkAction (resolveSelectors args) (lastArg args)) =
      CallOutcome.thunk t := ht
  injection ht2 with h
  subst h
  rfl

theorem direct_call_runs_thunk_witness :
    (mkComposedUnit [JsVal.funV sampleSelector] (JsVal.funV sampleCreator)).call
        [JsVal.funV sampleDispatch, JsVal.funV sampleGetState] =
      CallOutcome.executed
        (runThunk (mkThunkAction [JsVal.funV sampleSelector] (JsVal.funV sampleCreator))
          (JsVal.funV sampleDispatch) (JsVal.funV sampleGetState)) :=
  direct_call_runs_thunk [JsVal.funV sampleSelector, JsVal.funV sampleCreator]
    (mkComposedUnit [JsVal.funV sampleSelector] (JsVal.funV sampleCreator))
    (mkThunkAction [JsVal.funV sampleSelector] (JsVal.funV sampleCreator))
    sampleDispatch sampleGetState rfl rfl

/-- C6: a valid composed unit invoked with zero arguments, or with exactly
one argument — whatever that argument is — executes no selector, action
creator or dispatch (the outcome carries no execution), and returns the
marked thunk of `(dispatch, getState)`. -/
theorem zero_or_one_arg_returns_thunk (args : List (JsVal V)) (u : ComposedUnit V)
    (hu : selectorAction args = Except.ok u) (x : JsVal V) :
    u.call [] =
      CallOutcome.thunk (mkThunkAction (resolveSelectors args) (lastArg args)) ∧
    u.call [x] =
      CallOutcome.thunk (mkThunkAction (resolveSelectors args) (lastArg args)) := by
  obtain ⟨-, -, -, hu'⟩ := selectorAction_ok_elim hu
  subst hu'
  refine ⟨rfl, ?_⟩
  show generatedActionCreator (resolveSelectors args) (lastArg args) x JsVal.undef = _
  simp [generatedActionCreator, truthy]

theorem zero_or_one_arg_returns_thunk_witness :
    (mkComposedUnit [JsVal.funV sampleSelector] (JsVal.funV sampleCreator)).call [] =
      CallOutcome.thunk
        (mkThunkAction [JsVal.funV sampleSelector] (JsVal.funV sampleCreator)) ∧
    (mkComposedUnit [JsVal.funV sampleSelector] (JsVal.funV sampleCreator)).call
        [JsVal.numV 3] =
      CallOutcome.thunk
        (mkThunkAction [JsVal.funV sampleSelector] (JsVal.funV sampleCreator)) :=
  zero_or_one_arg_returns_thunk [JsVal.funV sampleSelector, JsVal.funV sampleCreator]
    (mkComposedUnit [JsVal.funV sampleSelector] (JsVal.funV sampleCreator)) rfl
    (JsVal.numV 3)

/-- C7: every valid construction marks both the composed unit itself and
every thunk the unit's calls return with `IS_SELECTOR_ACTION = true`. -/
theorem marker_on_unit_and_thunks (args : List (JsVal V)) (u : ComposedUnit V)
    (hu : selectorAction args = Except.ok u) :
    u.IS_SELECTOR_ACTION = true ∧
    ∀ (callArgs : List (JsVal V)) (t : SelThunk V),
      u.call callArgs = CallOutcome.thunk t → t.IS_SELECTOR_ACTION = true := by
  obtain ⟨-, -, -, hu'⟩ := selectorAction_ok_elim hu
  subst hu'
  refine ⟨rfl, ?_⟩
  intro callArgs t ht
  have ht2 : generatedActionCreator (resolveSelectors args) (lastArg args)
      (callArgs.getD 0 JsVal.undef) (callArgs.getD 1 JsVal.undef) =
        CallOutcome.thunk t := ht
  simp only [generatedActionCreator] at ht2
  by_cases hc : (truthy (callArgs.getD 0 JsVal.undef) &&
      truthy (callArgs.getD 1 JsVal.undef)) = true
  · rw [if_pos hc] at ht2
    exact CallOutcome.noConfusion ht2
  · rw [if_neg hc] at ht2
    injection ht2 with h
    rw [← h]
    rfl

theorem marker_on_unit_and_thunks_witness :
    (mkComposedUnit [JsVal.funV sampleSelector]
        (JsVal.funV sampleCreator)).IS_SELECTOR_ACTION = true ∧
    (mkThunkAction [JsVal.funV sampleSelector]
        (JsVal.funV sampleCreator)).IS_SELECTOR_ACTION = true :=
  ⟨(marker_on_unit_and_thunks [JsVal.funV sampleSelector, JsVal.funV sampleCreator]
      (mkComposedUnit [JsVal.funV sampleSelector] (JsVal.funV sampleCreator)) rfl).1,
   (marker_on_unit_and_thunks [JsVal.funV sampleSelector, JsVal.funV sampleCreator]
      (mkComposedUnit [JsVal.funV sampleSelector] (JsVal.funV sampleCreator)) rfl).2
     [] (mkThunkAction [JsVal.funV sampleSelector] (JsVal.funV sampleCreator)) rfl⟩

/-- C9: the composed unit's `originalActionCreator` property is, by
identity, the exact action-creator value passed to the composer as the
final argument. -/
theorem original_creator_identity (pre : List (JsVal V)) (f : JsVal V)
    (u : ComposedUnit V) (hu : selectorAction (pre ++ [f]) = Except.ok u) :
    u.originalActionCreator = f := by
  obtain ⟨-, -, -, hu'⟩ := selectorAction_ok_elim hu
  subst hu'
  show lastArg (pre ++ [f]) = f
  exact lastArg_append pre f

theorem original_creator_identity_witness :
    (mkComposedUnit [JsVal.funV sampleSelector]
        (JsVal.funV sampleCreator)).originalActionCreator = JsVal.funV sampleCreator :=
  original_creator_identity [JsVal.funV sampleSelector] (JsVal.funV sampleCreator)
    (mkComposedUnit [JsVal.funV sampleSelector] (JsVal.funV sampleCreator)) rfl

/-- C10: the choice between immediate execution and returning a thunk is
decided by the JS truthiness of the two call arguments alone, not by their
callability: when both are truthy — callable or not — the unit takes the
immediate path, running the thunk body on them (which calls the second
argument as the state accessor and dispatches through the first); when the
conjunction is falsy it returns the thunk. -/
theorem truthiness_decides_mode (args : List (JsVal V)) (u : ComposedUnit V)
    (hu : selectorAction args = Except.ok u) (d g : JsVal V) :
    ((truthy d && truthy g) = true →
      u.call [d, g] = CallOutcome.executed
        (runThunk (mkThunkAction (resolveSelectors args) (lastArg args)) d g)) ∧
    ((truthy d && truthy g) = false →
      u.call [d, g] = CallOutcome.thunk
        (mkThunkAction (resolveSelectors args) (lastArg args))) := by
  obtain ⟨-, -, -, hu'⟩ := selectorAction_ok_elim hu
  subst hu'
  constructor
  · intro hc
    show generatedActionCreator (resolveSelectors args) (lastArg args) d g = _
    simp only [generatedActionCreator]
    rw [if_pos hc]
  · intro hc
    show generatedActionCreator (resolveSelectors args) (lastArg args) d g = _
    simp only [generatedActionCreator]
    rw [if_neg (by simp [hc])]

theorem truthiness_decides_mode_witness :
    (mkComposedUnit [JsVal.funV sampleSelector] (JsVal.funV sampleCreator)).call
        [JsVal.numV 1, JsVal.numV 2] =
      CallOutcome.executed
        (runThunk (mkThunkAction [JsVal.funV sampleSelector] (JsVal.funV sampleCreator))
          (JsVal.numV 1) (JsVal.numV 2)) ∧
    runThunk (mkThunkAction [JsVal.funV sampleSelector] (JsVal.funV sampleCreator))
        (JsVal.numV 1) (JsVal.numV 2) = (Except.error JsError.typeError, []) ∧
    (mkComposedUnit [JsVal.funV sampleSelector] (JsVal.funV sampleCreator)).call
        [JsVal.funV sampleDispatch, JsVal.undef] =
      CallOutcome.thunk
        (mkThunkAction [JsVal.funV sampleSelector] (JsVal.funV sampleCreator)) :=
  ⟨(truthiness_decides_mode [JsVal.funV sampleSelector, JsVal.funV sampleCreator]
      (mkComposedUnit [JsVal.funV sampleSelector] (JsVal.funV sampleCreator)) rfl
      (JsVal.numV 1) (JsVal.numV 2)).1 rfl,
   rfl,
   (truthiness_decides_mode [JsVal.funV sampleSelector, JsVal.funV sampleCreator]
      (mkComposedUnit [JsVal.funV sampleSelector] (JsVal.funV sampleCreator)) rfl
      (JsVal.funV sampleDispatch) JsVal.undef).2 rfl⟩

/-- C3: the middleware's per-value stage intercepts exactly the callable
values whose recognition marker is truthy — invoking them on the captured
dispatch and state accessor and returning that result, never calling the
next stage — and forwards every other value unchanged to the next stage,
returning the next stage's result. -/
theorem middleware_decision (store : MwStore V) (next : MwAction V ρ → ρ) :
    (∀ (marker : JsVal V) (body : JsVal V → JsVal V → ρ), truthy marker = true →
        createModifiedThunkMiddleware store next (MwAction.callable marker body) =
          body store.dispatch store.getState) ∧
    (∀ (marker : JsVal V) (body : JsVal V → JsVal V → ρ), truthy marker = false →
        createModifiedThunkMiddleware store next (MwAction.callable marker body) =
          next (MwAction.callable marker body)) ∧
    (∀ v : JsVal V, createModifiedThunkMiddleware store next (MwAction.plain v) =
        next (MwAction.plain v)) := by
  refine ⟨fun marker body h => ?_, fun marker body h => ?_, fun v => rfl⟩
  · simp [createModifiedThunkMiddleware, h]
  · simp [createModifiedThunkMiddleware, h]

def mwNext : MwAction Nat Nat → Nat := fun _ => 99

def mwBody : JsVal Nat → JsVal Nat → Nat := fun _ _ => 7

def mwStoreSample : MwStore Nat where
  dispatch := JsVal.funV fun args => args.getD 0 0
  getState := JsVal.funV fun _ => 5

theorem middleware_decision_witness :
    createModifiedThunkMiddleware mwStoreSample mwNext
        (MwAction.callable (JsVal.boolV true) mwBody) = 7 ∧
    createModifiedThunkMiddleware mwStoreSample mwNext
        (MwAction.callable JsVal.undef mwBody) = 99 ∧
    createModifiedThunkMiddleware mwStoreSample mwNext (MwAction.plain JsVal.objV) = 99 :=
  ⟨((middleware_decision mwStoreSample mwNext).1 (JsVal.boolV true) mwBody rfl).trans rfl,
   ((middleware_decision mwStoreSample mwNext).2.1 JsVal.undef mwBody rfl).trans rfl,
   ((middleware_decision mwStoreSample mwNext).2.2 JsVal.objV).trans rfl⟩

/-! ## C8: selector sequences under caller mutation -/

def idSelector : JsVal Nat := JsVal.funV fun args => args.getD 0 0

def constSelector : JsVal Nat := JsVal.funV fun _ => 7

/-- An action creator returning how many arguments it received. -/
def argCountCreator : JsVal Nat := JsVal.funV fun args => args.length

def identityDispatch : JsVal Nat := JsVal.funV fun args => args.getD 0 0

def stateAccessorFive : JsVal Nat := JsVal.funV fun _ => 5

/-- The heap while the caller's selector array, passed in the array form
and captured by reference, still holds its construction-time contents. -/
def storeBefore : ArrStore Nat := [[idSelector]]

/-- The heap after the caller pushes one more selector onto that same
array. -/
def storeAfter : ArrStore Nat := [[idSelector, constSelector]]

/-- C8 counterexample: with the array-form construction the composed unit
aliases the caller's selector array, so after the caller mutates it the
same unit's next invocation hands the action creator three arguments where
the earlier invocation handed it two — the selector sequence, and with it
the creator's leading argument count, does change between invocations. -/
theorem selector_mutation_counterexample :
    (runThunkAt storeBefore (SelSource.aliased 0) argCountCreator identityDispatch
        stateAccessorFive).1 = Except.ok 2 ∧
    (runThunkAt storeAfter (SelSource.aliased 0) argCountCreator identityDispatch
        stateAccessorFive).1 = Except.ok 3 :=
  ⟨rfl, rfl⟩

/-- C8 amended: what is fixed at construction is the captured `selectors`
binding, not the array's contents.  The variadic form captures a fresh
slice, so its invocations are unaffected by any heap change — the claim
holds there; the array form captures a reference to the caller's array, so
each invocation behaves exactly as a unit over that array's current
contents, which caller mutation can change. -/
theorem selector_capture_semantics (store store' : ArrStore V)
    (sels : List (JsVal V)) (actionCreator dispatch getState : JsVal V) (r : Nat) :
    runThunkAt store (SelSource.sliced sels) actionCreator dispatch getState =
      runThunkAt store' (SelSource.sliced sels) actionCreator dispatch getState ∧
    runThunkAt store (SelSource.aliased r) actionCreator dispatch getState =
      runThunkAt store (SelSource.sliced (store.getD r [])) actionCreator dispatch
        getState :=
  ⟨rfl, rfl⟩

end SelectorAction
